import Mathlib

/-!
Shallow embedding of `src/core/synchronization/opencv.rs` (gyroflow's
OpenCV-backed motion estimator) and proofs about its orchestration and
validation logic.

Modelling conventions:
* `f32`/`f64` coordinate values are embedded as `ℚ`; the code under study
  performs only comparisons and moves on them, never rounding-sensitive
  arithmetic.
* Calls into the OpenCV library (`calc_optical_flow_pyr_lk`,
  `find_essential_mat` / `recover_pose_triangulated`,
  `good_features_to_track`) are abstracted as oracle parameters; the fixed
  numeric arguments the source passes (window 21x21, 3 pyramid levels,
  RANSAC 0.999 / 0.0005 / 1000, triangulation distance 100000, detector
  limits 200 / 0.01 / 10.0 / block 3) and the in/out `mask` matrix are
  folded into the abstracted call.
* Rust `Result` is embedded as `Except`; the `?` operator is an explicit
  match that propagates the error.
* The wrapping cast `u32 as i32` is embedded explicitly (`i32cast`).
-/

namespace Gyroflow

/-- An OpenCV error value: numeric code plus message, as produced by
`opencv::Error::new`. -/
structure CvError where
  code : Int
  msg : String
deriving DecidableEq

/-- Error produced by an out-of-range `Mat` element access (`Mat::at`). -/
def outOfRangeError : CvError := ⟨-211, "index out of range"⟩

/-- The error built at `cv_to_rot2`'s type check:
`opencv::Error::new(0, "Invalid matrix type")`. -/
def invalidMatrixTypeError : CvError := ⟨0, "Invalid matrix type"⟩

/-- The error built at the inlier gate in `estimate_pose`:
`opencv::Error::new(0, "Model not found")`. -/
def modelNotFoundError : CvError := ⟨0, "Model not found"⟩

/-- `image::GrayImage`: a grayscale raster with its dimensions and flat
byte buffer. -/
structure GrayImage where
  width : Nat
  height : Nat
  data : List Nat
deriving DecidableEq

/-- `image::GrayImage::default()`: the empty 0x0 image. -/
def GrayImage.emptyImage : GrayImage := ⟨0, 0, []⟩

/-- `GrayImage::is_empty()`: true iff the backing buffer is empty. -/
def GrayImage.is_empty (img : GrayImage) : Bool := img.data.isEmpty

/-- `opencv::core::Point2f`, with coordinates embedded as `ℚ`. -/
structure Point2f where
  x : ℚ
  y : ℚ
deriving DecidableEq

/-- The struct `ItemOpenCV { features, img, size }` from the source. -/
structure ItemOpenCV where
  features : List (ℚ × ℚ)
  img : GrayImage
  size : Int × Int
deriving DecidableEq

/-- Modelled from the spec: the tagged-variant estimator enum
`EstimatorItem` is declared outside this file (`super::EstimatorItem`);
the spec requires the correspondence step to check that both sides are the
same estimator variant, so one extra variant stands for any non-OpenCV
backend. -/
inductive EstimatorItem where
  | ItemOpenCV (item : ItemOpenCV)
  | ItemOther
deriving DecidableEq

/-- `fn cleanup(&mut self) { self.img = Arc::new(image::GrayImage::default()); }`
embedded as a state transformer on the item. -/
def cleanup (item : ItemOpenCV) : ItemOpenCV :=
  { item with img := GrayImage.emptyImage }

/-- `fn get_features(&self) -> &Vec<(f32, f32)>`. -/
def get_features (item : ItemOpenCV) : List (ℚ × ℚ) :=
  item.features

/-- The OpenCV type tag `CV_64FC1` (64-bit float, one channel). -/
def CV_64FC1 : Int := 6

/-- The OpenCV type tag `CV_8UC1` (8-bit unsigned, one channel). -/
def CV_8UC1 : Int := 0

/-- An `opencv::core::Mat` of element type `typ` whose elements are read
through `at_2d`; `data` is the row-major element grid. -/
structure Mat where
  typ : Int
  data : List (List ℚ)
deriving DecidableEq

/-- Row count of a `Mat`. -/
def Mat.rows (m : Mat) : Nat := m.data.length

/-- Column count of a `Mat`. -/
def Mat.cols (m : Mat) : Nat := (m.data.headD []).length

/-- `Mat::at_2d::<f64>(i, j)`: checked element access, failing with an
out-of-range error exactly when the position does not exist. -/
def Mat.at_2d (m : Mat) (i j : Nat) : Except CvError ℚ :=
  match m.data[i]? with
  | none => .error outOfRangeError
  | some row =>
    match row[j]? with
    | none => .error outOfRangeError
    | some v => .ok v

/-- `nalgebra::Rotation3<f64>` as built by `Rotation3::from_matrix_unchecked`
from nine row-major entries; no orthonormality is imposed, matching
`from_matrix_unchecked`. -/
structure Rotation3 where
  m11 : ℚ
  m12 : ℚ
  m13 : ℚ
  m21 : ℚ
  m22 : ℚ
  m23 : ℚ
  m31 : ℚ
  m32 : ℚ
  m33 : ℚ
deriving DecidableEq

/-- `fn cv_to_rot2(r1: Mat) -> Result<Rotation3<f64>, opencv::Error>`:
rejects any matrix whose type tag is not `CV_64FC1`, then reads the nine
elements at rows 0-2, columns 0-2 in row-major order, propagating any
element-access error. -/
def cv_to_rot2 (r1 : Mat) : Except CvError Rotation3 :=
  if r1.typ ≠ CV_64FC1 then
    .error invalidMatrixTypeError
  else
    match r1.at_2d 0 0 with
    | .error e => .error e
    | .ok v11 =>
    match r1.at_2d 0 1 with
    | .error e => .error e
    | .ok v12 =>
    match r1.at_2d 0 2 with
    | .error e => .error e
    | .ok v13 =>
    match r1.at_2d 1 0 with
    | .error e => .error e
    | .ok v21 =>
    match r1.at_2d 1 1 with
    | .error e => .error e
    | .ok v22 =>
    match r1.at_2d 1 2 with
    | .error e => .error e
    | .ok v23 =>
    match r1.at_2d 2 0 with
    | .error e => .error e
    | .ok v31 =>
    match r1.at_2d 2 1 with
    | .error e => .error e
    | .ok v32 =>
    match r1.at_2d 2 2 with
    | .error e => .error e
    | .ok v33 =>
      .ok ⟨v11, v12, v13, v21, v22, v23, v31, v32, v33⟩

/-- Checked element access into a point/byte `Mat` stored as a list
(`Mat::at::<T>(i)` in the source), failing out of range. -/
def matNth {α : Type} (l : List α) (i : Nat) : Except CvError α :=
  match l[i]? with
  | some v => .ok v
  | none => .error outOfRangeError

/-- The in-bounds test from the tracker's filtering loop:
`p.x >= 0.0 && p.x < w as f32 && p.y >= 0.0 && p.y < h as f32`. -/
def inFrame (w h : Int) (p : Point2f) : Bool :=
  decide (0 ≤ p.x) && decide (p.x < (w : ℚ)) && decide (0 ≤ p.y) && decide (p.y < (h : ℚ))

/-- The filtering loop of `get_matched_features`
(`for i in 0..status.rows() { ... }`), embedded as structural recursion
over the status bytes with `i` the running index: a pair is pushed onto
both output vectors when its status byte is 1 and both points lie inside
`[0, w) x [0, h)`; element reads out of range abort the whole loop with
an error, exactly as the source's `?` operator does. -/
def matchLoop (w h : Int) (a1 a2 : List Point2f) :
    List Nat → Nat → Except CvError (List (ℚ × ℚ) × List (ℚ × ℚ))
  | [], _ => .ok ([], [])
  | s :: rest, i =>
    if s = 1 then
      match matNth a1 i with
      | .error e => .error e
      | .ok pt1 =>
        match matNth a2 i with
        | .error e => .error e
        | .ok pt2 =>
          if inFrame w h pt1 && inFrame w h pt2 then
            match matchLoop w h a1 a2 rest (i + 1) with
            | .error e => .error e
            | .ok r => .ok ((pt1.x, pt1.y) :: r.1, (pt2.x, pt2.y) :: r.2)
          else
            matchLoop w h a1 a2 rest (i + 1)
    else
      matchLoop w h a1 a2 rest (i + 1)

/-- A raw single-channel `Mat` view over an image buffer, as built by
`Mat::new_size_with_data(Size::new(w, h), CV_8UC1, ptr, stride)`. -/
structure RawMat where
  width : Int
  height : Int
  typ : Int
  stride : Int
  data : List Nat
deriving DecidableEq

/-- The raster view `get_matched_features` builds over an image: size
`(w, h)`, type `CV_8UC1`, stride `w as usize`. -/
def raster (w h : Int) (img : GrayImage) : RawMat :=
  ⟨w, h, CV_8UC1, w, img.data⟩

/-- `self.features.iter().map(|(x, y)| Point2f::new(*x, *y))`. -/
def toPoint2f (pts : List (ℚ × ℚ)) : List Point2f :=
  pts.map (fun p => ⟨p.1, p.2⟩)

/-- Abstraction of the external call
`opencv::video::calc_optical_flow_pyr_lk`: from the two rasters and the
starting points it returns the tracked points and the per-point status
bytes (or an error); the fixed tuning arguments the source passes are
folded into the oracle. -/
structure FlowOracle where
  run : RawMat → RawMat → List Point2f → Except CvError (List Point2f × List Nat)

/-- The body of the `result` closure in `get_matched_features`, after the
precondition guard: build the two rasters, run pyramidal tracking, then
filter with `matchLoop`. -/
def matchCore (flow : FlowOracle) (w h : Int) (imgA imgB : GrayImage)
    (features : List (ℚ × ℚ)) : Except CvError (List (ℚ × ℚ) × List (ℚ × ℚ)) :=
  let a1_img := raster w h imgA
  let a2_img := raster w h imgB
  let pts1 := toPoint2f features
  match flow.run a1_img a2_img pts1 with
  | .error e => .error e
  | .ok r => matchLoop w h pts1 r.1 r.2 0

/-- `fn get_matched_features(&self, next: &EstimatorItem) -> Option<...>`:
requires `next` to be the `ItemOpenCV` variant, both images non-empty and
`self`'s stored width and height positive, then runs tracking and
filtering, converting any error to `None`. -/
def get_matched_features (flow : FlowOracle) (self : ItemOpenCV)
    (next : EstimatorItem) : Option (List (ℚ × ℚ) × List (ℚ × ℚ)) :=
  match next with
  | .ItemOpenCV next =>
    let w := self.size.1
    let h := self.size.2
    if self.img.is_empty || next.img.is_empty || decide (w ≤ 0) || decide (h ≤ 0) then
      none
    else
      match matchCore flow w h self.img next.img self.features with
      | .ok res => some res
      | .error _ => none
  | .ItemOther => none

/-- `fn optical_flow_to(&self, to: &EstimatorItem)`: delegates to
`get_matched_features`. -/
def optical_flow_to (flow : FlowOracle) (self : ItemOpenCV)
    (next : EstimatorItem) : Option (List (ℚ × ℚ) × List (ℚ × ℚ)) :=
  get_matched_features flow self next

/-- The failing precondition of the correspondence tracker as the spec
states it: the other item is a different estimator variant, or either
image is empty, or the stored width or height is not positive. -/
def matchPrecondFails (self : ItemOpenCV) (next : EstimatorItem) : Prop :=
  match next with
  | .ItemOther => True
  | .ItemOpenCV b =>
    self.img.is_empty = true ∨ b.img.is_empty = true ∨
      self.size.1 ≤ 0 ∨ self.size.2 ≤ 0

/-- Spec-side filtering function, written after the spec's words: a
tracked pair is kept exactly when its validity flag is 1 and both the
source point and the tracked point lie strictly within
`[0, width) x [0, height)`; all other pairs are dropped with no
placeholder. Index alignment is by position in the three input lists. -/
def keptPairs (w h : Int) (a1 a2 : List Point2f) (status : List Nat) :
    List ((ℚ × ℚ) × (ℚ × ℚ)) :=
  (status.zip (a1.zip a2)).filterMap (fun t =>
    if t.1 = 1 ∧ inFrame w h t.2.1 = true ∧ inFrame w h t.2.2 = true then
      some ((t.2.1.x, t.2.1.y), (t.2.2.x, t.2.2.y))
    else
      none)

/-- Modelled from the spec: the lens-undistortion collaborator
`crate::stabilization::undistort_points_for_optical_flow` lives outside
this file; the spec describes it as a pure, index-aligned function of the
points, the timestamp, the calibration parameters and the frame size, so
it is modelled as a per-point map, with the calibration parameters
(`ComputeParams`) folded into the carried function. -/
structure UndistortModel where
  f : (ℚ × ℚ) → Int → (Nat × Nat) → (ℚ × ℚ)

/-- Modelled from the spec: index-aligned undistortion of a point list at
one timestamp and frame size. -/
def undistort_points_for_optical_flow (u : UndistortModel) (pts : List (ℚ × ℚ))
    (timestamp_us : Int) (frame_size : Nat × Nat) : List (ℚ × ℚ) :=
  pts.map (fun p => u.f p timestamp_us frame_size)

/-- The point list handed to the essential-matrix step by `estimate_pose`:
the matched points, undistorted at the given timestamp against
`(self.img.width(), self.img.height())`, then rebuilt as `Point2f`s. -/
def posePoints (u : UndistortModel) (self : ItemOpenCV) (timestamp_us : Int)
    (pts : List (ℚ × ℚ)) : List Point2f :=
  toPoint2f (undistort_points_for_optical_flow u pts timestamp_us
    (self.img.width, self.img.height))

/-- Abstraction of the two external calib3d calls in `estimate_pose`:
`find_essential_mat` (identity intrinsics, RANSAC, 0.999, 0.0005, 1000
iterations, with the mask threading folded in) yields the essential
matrix, and `recover_pose_triangulated` (distance bound 100000) yields
the reported inlier count together with the recovered rotation matrix. -/
structure PoseOracle where
  find_essential_mat : List Point2f → List Point2f → Except CvError Mat
  recover_pose_triangulated : Mat → List Point2f → List Point2f → Except CvError (Int × Mat)

/-- `fn estimate_pose(&self, next, params, timestamp_us, next_timestamp_us)`:
match features, undistort both sides, compute the essential matrix,
recover the pose, reject fewer than 20 inliers, convert the rotation
matrix; any error at any stage becomes `None`. -/
def estimate_pose (pose : PoseOracle) (u : UndistortModel) (flow : FlowOracle)
    (self : ItemOpenCV) (next : EstimatorItem)
    (timestamp_us next_timestamp_us : Int) : Option Rotation3 :=
  match get_matched_features flow self next with
  | none => none
  | some pts =>
    let p1 := posePoints u self timestamp_us pts.1
    let p2 := posePoints u self next_timestamp_us pts.2
    let result : Except CvError Rotation3 :=
      match pose.find_essential_mat p1 p2 with
      | .error e => .error e
      | .ok e =>
        match pose.recover_pose_triangulated e p1 p2 with
        | .error err => .error err
        | .ok nr =>
          if nr.1 < 20 then .error modelNotFoundError
          else cv_to_rot2 nr.2
    match result with
    | .ok res => some res
    | .error _ => none

/-- The wrapping Rust cast `u32 as i32`: reduce modulo `2 ^ 32` and
reinterpret in two's complement. -/
def i32cast (n : Nat) : Int :=
  if n % 2 ^ 32 < 2 ^ 31 then ((n % 2 ^ 32 : Nat) : Int)
  else ((n % 2 ^ 32 : Nat) : Int) - 2 ^ 32

/-- Abstraction of building the input `Mat` over the frame buffer and
calling `opencv::imgproc::good_features_to_track` (limit 200, quality
0.01, min distance 10.0, no mask, block size 3, no Harris): from the cast
dimensions and the image it returns the detected points or an error. -/
structure DetectOracle where
  run : Int → Int → GrayImage → Except CvError (List Point2f)

/-- `fn detect_features(_timestamp_us, img, width, height) -> Self`: on
detection failure the output `Mat` stays at its default (no rows), so
`features` is empty; either way the item stores the cast dimensions and
retains the image. -/
def detect_features (oracle : DetectOracle) (_timestamp_us : Int)
    (img : GrayImage) (width height : Nat) : ItemOpenCV :=
  let w := i32cast width
  let h := i32cast height
  match oracle.run w h img with
  | .error _ => { features := [], size := (w, h), img := img }
  | .ok pts => { features := pts.map (fun p => (p.x, p.y)), size := (w, h), img := img }

/-- A concrete 2x2 test image. -/
def wImg : GrayImage := ⟨2, 2, [10, 20, 30, 40]⟩

/-- A concrete item with one feature at (1, 1) and size 2x2. -/
def wItemA : ItemOpenCV := ⟨[(1, 1)], wImg, (2, 2)⟩

/-- A concrete second item (its own size field deliberately differs). -/
def wItemB : ItemOpenCV := ⟨[], wImg, (9, 9)⟩

/-- A concrete flow oracle: every point tracks to itself with status 1. -/
def wFlow : FlowOracle := ⟨fun _ _ pts => .ok (pts, List.replicate pts.length 1)⟩

/-- A concrete undistortion model: the identity map. -/
def wU : UndistortModel := ⟨fun p _ _ => p⟩

/-- A concrete 3x3 identity matrix of type CV_64FC1. -/
def wMatI : Mat := ⟨CV_64FC1, [[1, 0, 0], [0, 1, 0], [0, 0, 1]]⟩

/-- A concrete pose oracle reporting 5 inliers. -/
def wPoseLow : PoseOracle := ⟨fun _ _ => .ok wMatI, fun _ _ _ => .ok (5, wMatI)⟩

/-- A concrete pose oracle reporting 1 inlier. -/
def wPoseTiny : PoseOracle := ⟨fun _ _ => .ok wMatI, fun _ _ _ => .ok (1, wMatI)⟩

/-- A concrete 4x4 matrix of type CV_64FC1 (not 3x3). -/
def mat4x4 : Mat :=
  ⟨CV_64FC1, [[1, 0, 0, 5], [0, 1, 0, 5], [0, 0, 1, 5], [5, 5, 5, 5]]⟩

/-- A concrete always-failing detection oracle. -/
def failDetect : DetectOracle := ⟨fun _ _ _ => .error ⟨-1, "detect failed"⟩⟩

/-- A concrete 1x1 image. -/
def img1x1 : GrayImage := ⟨1, 1, [0]⟩

end Gyroflow

namespace Gyroflow

/-- Reading within bounds through `matNth` succeeds with the stored value. -/
theorem matNth_eq_ok {α : Type} (l : List α) (i : Nat) (x : α)
    (h : l[i]? = some x) : matNth l i = .ok x := by
  simp [matNth, h]

/-- Any successful run of the filtering loop pushes onto both output
vectors in lockstep, so the two outputs have equal length. -/
theorem matchLoop_ok_length (w h : Int) (a1 a2 : List Point2f) :
    ∀ (status : List Nat) (i : Nat) (r : List (ℚ × ℚ) × List (ℚ × ℚ)),
      matchLoop w h a1 a2 status i = .ok r → r.1.length = r.2.length := by
  intro status
  induction status with
  | nil =>
    intro i r hr
    simp only [matchLoop] at hr
    cases hr
    rfl
  | cons s rest ih =>
    intro i r hr
    simp only [matchLoop] at hr
    split at hr
    · split at hr
      · cases hr
      · split at hr
        · cases hr
        · split at hr
          · split at hr
            · cases hr
            · rename_i r0 h3
              cases hr
              simpa using ih (i + 1) r0 h3
          · exact ih (i + 1) r hr
    · exact ih (i + 1) r hr

/-- Every tracked point a successful run of the filtering loop returns
passed the in-frame test against the given width and height. -/
theorem matchLoop_snd_bounds (w h : Int) (a1 a2 : List Point2f) :
    ∀ (status : List Nat) (i : Nat) (r : List (ℚ × ℚ) × List (ℚ × ℚ)),
      matchLoop w h a1 a2 status i = .ok r →
      ∀ q ∈ r.2, 0 ≤ q.1 ∧ q.1 < (w : ℚ) ∧ 0 ≤ q.2 ∧ q.2 < (h : ℚ) := by
  intro status
  induction status with
  | nil =>
    intro i r hr
    simp only [matchLoop] at hr
    cases hr
    intro q hq
    simp at hq
  | cons s rest ih =>
    intro i r hr
    simp only [matchLoop] at hr
    split at hr
    · split at hr
      · cases hr
      · split at hr
        · cases hr
        · rename_i pt2 h2
          split at hr
          · rename_i hf
            split at hr
            · cases hr
            · rename_i r0 h3
              cases hr
              intro q hq
              simp only [List.mem_cons] at hq
              rcases hq with hq | hq
              · subst hq
                have hf2 : inFrame w h pt2 = true := by
                  simp only [Bool.and_eq_true] at hf
                  exact hf.2
                simp only [inFrame, Bool.and_eq_true, decide_eq_true_eq] at hf2
                exact ⟨hf2.1.1.1, hf2.1.1.2, hf2.1.2, hf2.2⟩
              · exact ih (i + 1) r0 h3 q hq
          · exact ih (i + 1) r hr
    · exact ih (i + 1) r hr

/-- Unfolding of the spec-side filter over aligned heads. -/
theorem keptPairs_cons (w h : Int) (x y : Point2f) (xs ys : List Point2f)
    (s : Nat) (ss : List Nat) :
    keptPairs w h (x :: xs) (y :: ys) (s :: ss) =
      if s = 1 ∧ inFrame w h x = true ∧ inFrame w h y = true then
        ((x.x, x.y), (y.x, y.y)) :: keptPairs w h xs ys ss
      else
        keptPairs w h xs ys ss := by
  by_cases hc : s = 1 ∧ inFrame w h x = true ∧ inFrame w h y = true
  · simp only [keptPairs, List.zip_cons_cons, List.filterMap_cons, if_pos hc]
  · simp only [keptPairs, List.zip_cons_cons, List.filterMap_cons, if_neg hc]

/-- When the point lists cover every status index, the filtering loop
succeeds and returns exactly the pairs the spec-side filter keeps: the
pairs whose status byte is 1 and whose two points both lie strictly
inside the frame, in index order, with nothing substituted for dropped
pairs. -/
theorem matchLoop_eq_kept (w h : Int) (a1 a2 : List Point2f) :
    ∀ (status : List Nat) (i : Nat),
      a1.length = i + status.length → a2.length = i + status.length →
      matchLoop w h a1 a2 status i =
        .ok ((keptPairs w h (a1.drop i) (a2.drop i) status).map Prod.fst,
             (keptPairs w h (a1.drop i) (a2.drop i) status).map Prod.snd) := by
  intro status
  induction status with
  | nil =>
    intro i h1 h2
    simp [matchLoop, keptPairs]
  | cons s rest ih =>
    intro i h1 h2
    have hi1 : i < a1.length := by simp only [List.length_cons] at h1; omega
    have hi2 : i < a2.length := by simp only [List.length_cons] at h2; omega
    have hd1 : a1.drop i = a1[i] :: a1.drop (i + 1) := List.drop_eq_getElem_cons hi1
    have hd2 : a2.drop i = a2[i] :: a2.drop (i + 1) := List.drop_eq_getElem_cons hi2
    have hm1 : matNth a1 i = .ok a1[i] :=
      matNth_eq_ok a1 i _ (List.getElem?_eq_getElem hi1)
    have hm2 : matNth a2 i = .ok a2[i] :=
      matNth_eq_ok a2 i _ (List.getElem?_eq_getElem hi2)
    have ihx := ih (i + 1)
      (by simp only [List.length_cons] at h1; omega)
      (by simp only [List.length_cons] at h2; omega)
    rw [hd1, hd2, keptPairs_cons]
    simp only [matchLoop, hm1, hm2]
    by_cases hs : s = 1
    · by_cases hcond : (inFrame w h a1[i] && inFrame w h a2[i]) = true
      · have hf1 : inFrame w h a1[i] = true := by
          simp only [Bool.and_eq_true] at hcond
          exact hcond.1
        have hf2 : inFrame w h a2[i] = true := by
          simp only [Bool.and_eq_true] at hcond
          exact hcond.2
        rw [if_pos hs, if_pos hcond, ihx, if_pos ⟨hs, hf1, hf2⟩]
        simp
      · have hnc : ¬(s = 1 ∧ inFrame w h a1[i] = true ∧ inFrame w h a2[i] = true) := by
          simp only [Bool.and_eq_true] at hcond
          intro ha
          exact hcond ⟨ha.2.1, ha.2.2⟩
        rw [if_pos hs, if_neg hcond, ihx, if_neg hnc]
    · have hnc : ¬(s = 1 ∧ inFrame w h a1[i] = true ∧ inFrame w h a2[i] = true) :=
        fun ha => hs ha.1
      rw [if_neg hs, ihx, if_neg hnc]

/-- Any error an element access produces is the out-of-range error. -/
theorem at_2d_error_eq (m : Mat) (i j : Nat) (e : CvError)
    (h : m.at_2d i j = .error e) : e = outOfRangeError := by
  unfold Mat.at_2d at h
  split at h
  · cases h
    rfl
  · split at h
    · cases h
      rfl
    · cases h

/-- C3: if the two items are not the same estimator variant, or either
item's image is empty, or the stored width or height (item A's `size`,
the one the call reads) is not positive, then `optical_flow_to` — which
delegates to `get_matched_features` — returns `None`; both are total
functions into `Option` here, so no error escapes. -/
theorem optical_flow_to_precond_none (flow : FlowOracle) (self : ItemOpenCV)
    (next : EstimatorItem) (h : matchPrecondFails self next) :
    optical_flow_to flow self next = none ∧
    get_matched_features flow self next = none := by
  have hg : get_matched_features flow self next = none := by
    cases next with
    | ItemOther => rfl
    | ItemOpenCV b =>
      simp only [matchPrecondFails] at h
      simp only [get_matched_features]
      have hc : (self.img.is_empty || b.img.is_empty ||
          decide (self.size.1 ≤ 0) || decide (self.size.2 ≤ 0)) = true := by
        rcases h with h | h | h | h <;> simp [h]
      rw [if_pos hc]
  exact ⟨hg, hg⟩

/-- C3 witness: a different-variant partner yields no result. -/
theorem optical_flow_to_precond_none_witness :
    optical_flow_to wFlow wItemA .ItemOther = none ∧
    get_matched_features wFlow wItemA .ItemOther = none :=
  optical_flow_to_precond_none wFlow wItemA .ItemOther trivial

/-- C4: every successful output of the correspondence tracker consists of
two index-aligned point sequences of equal length. -/
theorem get_matched_features_eq_len (flow : FlowOracle) (self : ItemOpenCV)
    (next : EstimatorItem) (l1 l2 : List (ℚ × ℚ))
    (h : get_matched_features flow self next = some (l1, l2)) :
    l1.length = l2.length := by
  cases next with
  | ItemOther => cases h
  | ItemOpenCV b =>
    simp only [get_matched_features] at h
    split at h
    · cases h
    · split at h
      · rename_i res hres
        cases h
        simp only [matchCore] at hres
        split at hres
        · cases hres
        · exact matchLoop_ok_length _ _ _ _ _ _ _ hres
      · cases h

/-- C4 witness: the tracker applied to the concrete items returns the
singleton pair lists, whose lengths the theorem equates. -/
theorem get_matched_features_eq_len_witness :
    get_matched_features wFlow wItemA (.ItemOpenCV wItemB) =
      some ([((1 : ℚ), (1 : ℚ))], [((1 : ℚ), (1 : ℚ))]) ∧
    ([((1 : ℚ), (1 : ℚ))] : List (ℚ × ℚ)).length =
      ([((1 : ℚ), (1 : ℚ))] : List (ℚ × ℚ)).length :=
  ⟨rfl, get_matched_features_eq_len wFlow wItemA (.ItemOpenCV wItemB) _ _ rfl⟩

/-- C2: when tracking runs (preconditions hold and the flow call succeeds
with the usual index-aligned outputs), the tracker's output is exactly
the spec-side filter: a pair appears iff its status flag is 1 and both
its points lie strictly within `[0, width) x [0, height)`; every other
pair is dropped with no placeholder. -/
theorem get_matched_features_keeps_iff (flow : FlowOracle) (a b : ItemOpenCV)
    (a2pts : List Point2f) (status : List Nat)
    (hA : a.img.is_empty = false) (hB : b.img.is_empty = false)
    (hw : 0 < a.size.1) (hh : 0 < a.size.2)
    (hrun : flow.run (raster a.size.1 a.size.2 a.img) (raster a.size.1 a.size.2 b.img)
        (toPoint2f a.features) = .ok (a2pts, status))
    (hl1 : (toPoint2f a.features).length = status.length)
    (hl2 : a2pts.length = status.length) :
    get_matched_features flow a (.ItemOpenCV b) =
      some ((keptPairs a.size.1 a.size.2 (toPoint2f a.features) a2pts status).map Prod.fst,
            (keptPairs a.size.1 a.size.2 (toPoint2f a.features) a2pts status).map Prod.snd) := by
  have h1 : ¬ a.size.1 ≤ 0 := not_le.mpr hw
  have h2 : ¬ a.size.2 ≤ 0 := not_le.mpr hh
  have hkept := matchLoop_eq_kept a.size.1 a.size.2 (toPoint2f a.features) a2pts status 0
    (by simpa using hl1) (by simpa using hl2)
  simp only [get_matched_features, matchCore, hrun]
  rw [if_neg (by simp [hA, hB, h1, h2])]
  rw [hkept]
  simp

/-- C2 witness: for the concrete items and flow oracle the successful
output equals the spec-side filter's output. -/
theorem get_matched_features_keeps_iff_witness :
    get_matched_features wFlow wItemA (.ItemOpenCV wItemB) =
      some ([((1 : ℚ), (1 : ℚ))], [((1 : ℚ), (1 : ℚ))]) :=
  (get_matched_features_keeps_iff wFlow wItemA wItemB (toPoint2f wItemA.features) [1]
    rfl rfl (by decide) (by decide) rfl rfl rfl).trans (by rfl)

/-- C10: the correspondence tracker consults only item A's stored size:
the result is invariant under arbitrary replacement of item B's size and
features fields (only B's image is read); the result depends on the flow
oracle only through its value on the two rasters built with item A's
width and height — so frame B's image is handed to the tracking call as
a raster of item A's dimensions — and every returned tracked point in
frame B was bounds-checked against item A's width and height. -/
theorem get_matched_features_uses_a_size (flow flow2 : FlowOracle)
    (a : ItemOpenCV) (bf bf2 : List (ℚ × ℚ)) (bi : GrayImage) (bs bs2 : Int × Int) :
    (get_matched_features flow a (.ItemOpenCV ⟨bf, bi, bs⟩) =
      get_matched_features flow a (.ItemOpenCV ⟨bf2, bi, bs2⟩)) ∧
    (flow.run (raster a.size.1 a.size.2 a.img) (raster a.size.1 a.size.2 bi)
        (toPoint2f a.features) =
      flow2.run (raster a.size.1 a.size.2 a.img) (raster a.size.1 a.size.2 bi)
        (toPoint2f a.features) →
      get_matched_features flow a (.ItemOpenCV ⟨bf, bi, bs⟩) =
        get_matched_features flow2 a (.ItemOpenCV ⟨bf, bi, bs⟩)) ∧
    (∀ l1 l2, get_matched_features flow a (.ItemOpenCV ⟨bf, bi, bs⟩) = some (l1, l2) →
      ∀ q ∈ l2, 0 ≤ q.1 ∧ q.1 < (a.size.1 : ℚ) ∧ 0 ≤ q.2 ∧ q.2 < (a.size.2 : ℚ)) := by
  refine ⟨rfl, ?_, ?_⟩
  · intro hrun
    simp only [get_matched_features, matchCore, hrun]
  · intro l1 l2 h q hq
    simp only [get_matched_features] at h
    split at h
    · cases h
    · split at h
      · rename_i res hres
        cases h
        simp only [matchCore] at hres
        split at hres
        · cases hres
        · exact matchLoop_snd_bounds _ _ _ _ _ _ _ hres q hq
      · cases h

/-- C10 witness: replacing item B's features and size leaves the result
unchanged, and the concrete returned tracked point is within item A's
bounds. -/
theorem get_matched_features_uses_a_size_witness :
    (get_matched_features wFlow wItemA (.ItemOpenCV ⟨[], wImg, (9, 9)⟩) =
      get_matched_features wFlow wItemA (.ItemOpenCV ⟨[(5, 5)], wImg, (1, 1)⟩)) ∧
    (0 ≤ (1 : ℚ) ∧ (1 : ℚ) < ((wItemA.size.1 : Int) : ℚ) ∧
      0 ≤ (1 : ℚ) ∧ (1 : ℚ) < ((wItemA.size.2 : Int) : ℚ)) :=
  ⟨(get_matched_features_uses_a_size wFlow wFlow wItemA [] [(5, 5)] wImg (9, 9) (1, 1)).1,
   (get_matched_features_uses_a_size wFlow wFlow wItemA [] [(5, 5)] wImg (9, 9) (1, 1)).2.2
      [((1 : ℚ), (1 : ℚ))] [((1 : ℚ), (1 : ℚ))] rfl ((1 : ℚ), (1 : ℚ)) (List.mem_singleton.mpr rfl)⟩

/-- C1: whenever the triangulated pose-recovery step reports fewer than
20 inliers for the point sequences passed through rotation recovery,
`estimate_pose` returns `None`; and a rotation value is produced only
when that step succeeded with an inlier count of at least 20. -/
theorem estimate_pose_inlier_gate (pose : PoseOracle) (u : UndistortModel)
    (flow : FlowOracle) (self : ItemOpenCV) (next : EstimatorItem)
    (t1 t2 : Int) (pts1 pts2 : List (ℚ × ℚ))
    (hm : get_matched_features flow self next = some (pts1, pts2)) :
    (∀ e n r1,
      pose.find_essential_mat (posePoints u self t1 pts1) (posePoints u self t2 pts2) = .ok e →
      pose.recover_pose_triangulated e (posePoints u self t1 pts1)
        (posePoints u self t2 pts2) = .ok (n, r1) →
      n < 20 →
      estimate_pose pose u flow self next t1 t2 = none) ∧
    (∀ r, estimate_pose pose u flow self next t1 t2 = some r →
      ∃ e n r1,
        pose.find_essential_mat (posePoints u self t1 pts1)
          (posePoints u self t2 pts2) = .ok e ∧
        pose.recover_pose_triangulated e (posePoints u self t1 pts1)
          (posePoints u self t2 pts2) = .ok (n, r1) ∧
        20 ≤ n ∧ cv_to_rot2 r1 = .ok r) := by
  constructor
  · intro e n r1 hf hr hn
    simp [estimate_pose, hm, hf, hr, hn]
  · intro r hsome
    simp only [estimate_pose, hm] at hsome
    cases hfe : pose.find_essential_mat (posePoints u self t1 pts1)
        (posePoints u self t2 pts2) with
    | error e => simp [hfe] at hsome
    | ok e =>
      cases hre : pose.recover_pose_triangulated e (posePoints u self t1 pts1)
          (posePoints u self t2 pts2) with
      | error err => simp [hfe, hre] at hsome
      | ok nr =>
        obtain ⟨n, r1⟩ := nr
        by_cases hn : n < 20
        · simp [hfe, hre, hn] at hsome
        · cases hcv : cv_to_rot2 r1 with
          | error e2 => simp [hfe, hre, hn, hcv] at hsome
          | ok rot =>
            simp only [hfe, hre, hcv, if_neg hn] at hsome
            cases hsome
            exact ⟨e, n, r1, rfl, hre, not_lt.mp hn, hcv⟩

/-- C1 witness: an oracle reporting 5 inliers on a successfully matched
pair forces `estimate_pose` to return no result. -/
theorem estimate_pose_inlier_gate_witness :
    estimate_pose wPoseLow wU wFlow wItemA (.ItemOpenCV wItemB) 0 0 = none :=
  (estimate_pose_inlier_gate wPoseLow wU wFlow wItemA (.ItemOpenCV wItemB) 0 0
    [(1, 1)] [(1, 1)] rfl).1 wMatI 5 wMatI rfl rfl (by decide)

/-- C6: with fewer than 8 correspondences surviving filtering, rotation
recovery inside `estimate_pose` yields no result: the reported inlier
count cannot exceed the number of correspondences handed to the external
recovery call (an inlier is one of the correspondences), so the 20-inlier
gate rejects the estimate on every path. -/
theorem estimate_pose_too_few_correspondences (pose : PoseOracle) (u : UndistortModel)
    (flow : FlowOracle) (self : ItemOpenCV) (next : EstimatorItem)
    (t1 t2 : Int) (pts1 pts2 : List (ℚ × ℚ))
    (hm : get_matched_features flow self next = some (pts1, pts2))
    (h8 : pts1.length < 8)
    (hb : ∀ e n r1,
      pose.find_essential_mat (posePoints u self t1 pts1) (posePoints u self t2 pts2) = .ok e →
      pose.recover_pose_triangulated e (posePoints u self t1 pts1)
        (posePoints u self t2 pts2) = .ok (n, r1) →
      n ≤ ((posePoints u self t1 pts1).length : Int)) :
    estimate_pose pose u flow self next t1 t2 = none := by
  have hlen : (posePoints u self t1 pts1).length = pts1.length := by
    simp [posePoints, toPoint2f, undistort_points_for_optical_flow]
  cases hfe : pose.find_essential_mat (posePoints u self t1 pts1)
      (posePoints u self t2 pts2) with
  | error e => simp [estimate_pose, hm, hfe]
  | ok e =>
    cases hre : pose.recover_pose_triangulated e (posePoints u self t1 pts1)
        (posePoints u self t2 pts2) with
    | error err => simp [estimate_pose, hm, hfe, hre]
    | ok nr =>
      obtain ⟨n, r1⟩ := nr
      have hn : n < 20 := by
        have hbn := hb e n r1 hfe hre
        rw [hlen] at hbn
        omega
      simp [estimate_pose, hm, hfe, hre, hn]

/-- C6 witness: one surviving correspondence with an oracle reporting one
inlier yields no result. -/
theorem estimate_pose_too_few_correspondences_witness :
    estimate_pose wPoseTiny wU wFlow wItemA (.ItemOpenCV wItemB) 0 0 = none := by
  refine estimate_pose_too_few_correspondences wPoseTiny wU wFlow wItemA
    (.ItemOpenCV wItemB) 0 0 [(1, 1)] [(1, 1)] rfl (by decide) ?_
  intro e n r1 hf hr
  have h3 : (Except.ok ((1 : Int), wMatI) : Except CvError (Int × Mat)) = .ok (n, r1) := hr
  cases h3
  decide

/-- C5 counterexample: a 4x4 matrix of element type CV_64FC1 is not 3x3,
yet the adapter does not return `InvalidMatrixType` — it returns a
rotation read from the top-left 3x3 entries, because the source checks
only the element type tag, never the dimensions. -/
theorem cv_to_rot2_accepts_non_3x3 :
    mat4x4.typ = CV_64FC1 ∧ mat4x4.rows ≠ 3 ∧ mat4x4.cols ≠ 3 ∧
    cv_to_rot2 mat4x4 = .ok ⟨1, 0, 0, 0, 1, 0, 0, 0, 1⟩ :=
  ⟨rfl, by decide, by decide, rfl⟩

/-- C5 (amended): the adapter returns `InvalidMatrixType` exactly for the
matrices whose element type tag is not 64-bit-float single-channel; when
the tag matches, it reads the nine elements at rows 0-2, columns 0-2 in
row-major order into the rotation without re-normalizing, and any failure
of those reads is the out-of-range error, never `InvalidMatrixType`. -/
theorem cv_to_rot2_type_gate (m : Mat) :
    (m.typ ≠ CV_64FC1 → cv_to_rot2 m = .error invalidMatrixTypeError) ∧
    (∀ e, m.typ = CV_64FC1 → cv_to_rot2 m = .error e → e = outOfRangeError) ∧
    (∀ v11 v12 v13 v21 v22 v23 v31 v32 v33,
      m.typ = CV_64FC1 →
      m.at_2d 0 0 = .ok v11 → m.at_2d 0 1 = .ok v12 → m.at_2d 0 2 = .ok v13 →
      m.at_2d 1 0 = .ok v21 → m.at_2d 1 1 = .ok v22 → m.at_2d 1 2 = .ok v23 →
      m.at_2d 2 0 = .ok v31 → m.at_2d 2 1 = .ok v32 → m.at_2d 2 2 = .ok v33 →
      cv_to_rot2 m = .ok ⟨v11, v12, v13, v21, v22, v23, v31, v32, v33⟩) := by
  refine ⟨?_, ?_, ?_⟩
  · intro hne
    simp only [cv_to_rot2]
    rw [if_pos hne]
  · intro e htyp herr
    have hne : ¬ m.typ ≠ CV_64FC1 := fun hx => hx htyp
    simp only [cv_to_rot2] at herr
    rw [if_neg hne] at herr
    split at herr
    · rename_i e0 heq
      cases herr
      exact at_2d_error_eq m 0 0 _ heq
    · split at herr
      · rename_i e0 heq
        cases herr
        exact at_2d_error_eq m 0 1 _ heq
      · split at herr
        · rename_i e0 heq
          cases herr
          exact at_2d_error_eq m 0 2 _ heq
        · split at herr
          · rename_i e0 heq
            cases herr
            exact at_2d_error_eq m 1 0 _ heq
          · split at herr
            · rename_i e0 heq
              cases herr
              exact at_2d_error_eq m 1 1 _ heq
            · split at herr
              · rename_i e0 heq
                cases herr
                exact at_2d_error_eq m 1 2 _ heq
              · split at herr
                · rename_i e0 heq
                  cases herr
                  exact at_2d_error_eq m 2 0 _ heq
                · split at herr
                  · rename_i e0 heq
                    cases herr
                    exact at_2d_error_eq m 2 1 _ heq
                  · split at herr
                    · rename_i e0 heq
                      cases herr
                      exact at_2d_error_eq m 2 2 _ heq
                    · cases herr
  · intro v11 v12 v13 v21 v22 v23 v31 v32 v33 htyp
    intro e11 e12 e13 e21 e22 e23 e31 e32 e33
    have hne : ¬ m.typ ≠ CV_64FC1 := fun hx => hx htyp
    simp only [cv_to_rot2]
    rw [if_neg hne]
    simp only [e11, e12, e13, e21, e22, e23, e31, e32, e33]

/-- C5 witness: on the concrete 3x3 identity matrix with the correct type
tag, the adapter reads the nine entries verbatim. -/
theorem cv_to_rot2_type_gate_witness :
    cv_to_rot2 wMatI = .ok ⟨1, 0, 0, 0, 1, 0, 0, 0, 1⟩ :=
  (cv_to_rot2_type_gate wMatI).2.2 1 0 0 0 1 0 0 0 1
    rfl rfl rfl rfl rfl rfl rfl rfl rfl rfl

/-- C7 counterexample: the claim says the item's size is set to the given
dimensions; with width `2 ^ 31` (which does not fit in `i32`) the stored
size is the wrapping cast, not the given width, even though the feature
list is empty as claimed. -/
theorem detect_features_wrap_counterexample :
    (detect_features failDetect 0 img1x1 (2 ^ 31) 1).features = [] ∧
    (detect_features failDetect 0 img1x1 (2 ^ 31) 1).size ≠ ((2 ^ 31 : Int), (1 : Int)) ∧
    (detect_features failDetect 0 img1x1 (2 ^ 31) 1).size = (-(2 ^ 31 : Int), (1 : Int)) :=
  ⟨rfl, by decide, by decide⟩

/-- C7 (amended): when the underlying detection call fails, the function
still returns an item (never an error): its feature list is empty, its
image is the given one, and its size is the given dimensions under the
wrapping `u32 as i32` cast — in particular equal to the given dimensions
whenever both fit below `2 ^ 31`. -/
theorem detect_features_failure (oracle : DetectOracle) (t : Int) (img : GrayImage)
    (width height : Nat) (e : CvError)
    (h : oracle.run (i32cast width) (i32cast height) img = .error e) :
    (detect_features oracle t img width height).features = [] ∧
    (detect_features oracle t img width height).size = (i32cast width, i32cast height) ∧
    (detect_features oracle t img width height).img = img ∧
    (width < 2 ^ 31 → height < 2 ^ 31 →
      (detect_features oracle t img width height).size = ((width : Int), (height : Int))) := by
  have hcast : ∀ n : Nat, n < 2 ^ 31 → i32cast n = (n : Int) := by
    intro n hn
    unfold i32cast
    have hmod : n % 2 ^ 32 = n := Nat.mod_eq_of_lt (by omega)
    rw [hmod, if_pos hn]
  refine ⟨?_, ?_, ?_, ?_⟩
  · simp [detect_features, h]
  · simp [detect_features, h]
  · simp [detect_features, h]
  · intro hw hh
    have h2 := h
    rw [hcast width hw, hcast height hh] at h2
    simp [detect_features, h2, hcast width hw, hcast height hh]

/-- C7 witness: a failing detection oracle on in-range dimensions yields
the empty feature list with the given size stored. -/
theorem detect_features_failure_witness :
    (detect_features failDetect 0 img1x1 3 2).features = [] ∧
    (detect_features failDetect 0 img1x1 3 2).size = ((3 : Int), (2 : Int)) :=
  ⟨(detect_features_failure failDetect 0 img1x1 3 2 ⟨-1, "detect failed"⟩ rfl).1,
   (detect_features_failure failDetect 0 img1x1 3 2 ⟨-1, "detect failed"⟩ rfl).2.2.2
     (by decide) (by decide)⟩

/-- C9: cleanup is idempotent — applying it twice yields the same item
state as applying it once. -/
theorem cleanup_idempotent (item : ItemOpenCV) :
    cleanup (cleanup item) = cleanup item :=
  rfl

/-- C8: cleanup replaces the image with the empty buffer and leaves the
features sequence and size field unchanged. -/
theorem cleanup_preserves_features_size (item : ItemOpenCV) :
    (cleanup item).features = item.features ∧
    (cleanup item).size = item.size ∧
    (cleanup item).img = GrayImage.emptyImage :=
  ⟨rfl, rfl, rfl⟩

end Gyroflow
